import Mathlib

/-!
Shallow embedding of the PhonePe payment relay backend: the current draft
in src/server.js (namespace ServerJs below) and the enhanced second draft
contained in src/unnamed/part_000, lines 64-457 (namespace Draft2 below).

Modelling conventions.  Each HTTP handler is a pure function.  The single
outbound call per operation splits a handler into a pre-call stage
(validation, payload construction, signing), returning either an early
client response or the outbound request about to be sent, and a post-call
translation stage taking the parsed upstream reply explicitly.  JavaScript
numbers are modelled as rationals; a request-body amount is a JSON number
or a truthy non-numeric string (constructor nan, whose numeric parses are
NaN).  SHA-256 hex digesting and the JSON-serialize-then-base64 step are
passed in as explicit function parameters (sha, ser), since the claims
only constrain how their outputs are assembled.  Date.now() and the random
id suffix of the second draft are explicit parameters (now, rand).
-/

/-- Truthiness of a possibly-missing JS string: undefined and the empty
string are falsy, every other string is truthy. -/
def truthyStr : Option String → Bool
  | none => false
  | some s => decide (¬ s = "")

/-- A JS amount value as it arrives in the JSON request body: either a
number, or a truthy non-numeric string (parseInt and parseFloat of which
are NaN). -/
inductive AmountV where
  | num (q : ℚ)
  | nan
deriving DecidableEq

/-- Truthiness of a possibly-missing amount: undefined and the number 0
are falsy; a non-empty non-numeric string is truthy. -/
def truthyAmt : Option AmountV → Bool
  | none => false
  | some (.num q) => decide (¬ q = 0)
  | some .nan => true

/-- JS parseInt applied to a numeric value: truncation toward zero. -/
def jsTrunc (q : ℚ) : Int := if q < 0 then ⌈q⌉ else ⌊q⌋

/-- JS Math.round: the floor of the argument plus one half. -/
def jsRound (q : ℚ) : Int := ⌊q + 1 / 2⌋

/-- JS string-or-default, modelling the a-or-b idiom with the logical-or
operator: an absent or empty (falsy) string yields the default. -/
def jsOr : Option String → String → String
  | some s, d => if s = "" then d else s
  | none, d => d

/-- Template-literal rendering of a possibly-undefined JS string:
undefined prints as the literal text undefined. -/
def jsShow : Option String → String
  | some s => s
  | none => "undefined"

/-- Character-list version of String.startsWith. -/
def leadsWith : List Char → List Char → Bool
  | _, [] => true
  | [], _ :: _ => false
  | a :: as, b :: bs => (a == b) && leadsWith as bs

/-- Character-list substring containment test. -/
def hasSubAux : List Char → List Char → Bool
  | [], p => leadsWith [] p
  | c :: t, p => leadsWith (c :: t) p || hasSubAux t p

/-- JS String.prototype.startsWith. -/
def strLeads (s pat : String) : Bool := leadsWith s.data pat.data

/-- JS String.prototype.includes. -/
def strHasSub (s pat : String) : Bool := hasSubAux s.data pat.data

/-- The environment configuration read from process.env. -/
structure Env where
  merchantId : Option String
  saltKey : Option String
  saltIndex : Option String
  baseUrl : Option String
  nodeEnv : Option String
deriving DecidableEq

/-- All three signing-related secrets (MERCHANT_ID, SALT_KEY, SALT_INDEX)
are present and truthy. -/
def secretsSet (e : Env) : Bool :=
  truthyStr e.merchantId && truthyStr e.saltKey && truthyStr e.saltIndex

/-- The parsed JSON body of a POST /pay request. -/
structure PayReq where
  amount : Option AmountV
  mobile : Option String
  name : Option String
deriving DecidableEq

/-- The gateway payload object built by the /pay handlers (field order as
in the source; the amount field is None when the JS computation yields
NaN). -/
structure Payload where
  merchantId : String
  merchantTransactionId : String
  merchantUserId : String
  amount : Option Int
  redirectUrl : String
  redirectMode : String
  callbackUrl : String
  mobileNumber : String
  instrumentType : String
deriving DecidableEq

/-- The outbound initiate-pay request the handler is about to send: target
URL, X-VERIFY header, base64 request body, plus the generated transaction
id and the payload it serialises. -/
structure Envelope where
  apiUrl : String
  xVerify : String
  payloadBase64 : String
  transactionId : String
  payload : Payload
deriving DecidableEq

/-- redirectInfo object of a parsed upstream reply. -/
structure RedirectInfo where
  url : Option String
deriving DecidableEq

/-- instrumentResponse object of a parsed upstream reply. -/
structure InstrumentResponse where
  redirectInfo : Option RedirectInfo
deriving DecidableEq

/-- data object of a parsed upstream reply. -/
structure UpData where
  instrumentResponse : Option InstrumentResponse
deriving DecidableEq

/-- A parsed JSON reply from the gateway's pay endpoint. -/
structure Upstream where
  success : Option Bool
  data : Option UpData
  message : Option String
  code : Option String
deriving DecidableEq

/-- A client-facing JSON response from the /pay handlers: HTTP status plus
the optional body fields the drafts use (absent fields are None). -/
structure PayResponse where
  status : Nat
  error : Option String := none
  required : Option (List String) := none
  received : Option PayReq := none
  success : Option Bool := none
  url : Option String := none
  transactionId : Option String := none
  merchantTransactionId : Option String := none
  message : Option String := none
  code : Option String := none
  details : Option Upstream := none
  detailsText : Option String := none
deriving DecidableEq

/-- A client-facing response from the POST /callback/:transactionId
handlers. -/
structure CallbackResponse where
  status : Nat
  message : Option String := none
  error : Option String := none
  transactionId : Option String := none
  timestamp : Option String := none
deriving DecidableEq

/-- Outcome of the pre-call part of the server.js GET /status handler:
either the outbound call it is about to make, or a thrown TypeError
(caught by the handler's catch block as a generic 500). -/
inductive StatusOutcome where
  | call (url : String) (xVerify : String) (merchantHeader : String)
  | thrown (message : String)
deriving DecidableEq

/-- The outbound status call of the second draft's getTransactionStatus. -/
structure StatusCall where
  url : String
  xVerify : String
  merchantHeader : String
deriving DecidableEq

/-- Signature formula as the spec states it: hex SHA-256 of payload,
then the literal API-path suffix, then the secret key, with the key index
appended after a triple-hash separator. -/
def specSignature (sha : String → String) (p k i : String) : String :=
  sha (p ++ "/pg/v1/pay" ++ k) ++ "###" ++ i

/-- Minor-unit amount as the spec states it: round(amount * 100). -/
def specMinorAmount (a : ℚ) : Int := jsRound (a * 100)

/-- The claim's bad-amount predicate: zero, negative, non-numeric, or
above the 100000 ceiling. -/
def badAmount : AmountV → Bool
  | .num q => decide (q ≤ 0) || decide (100000 < q)
  | .nan => true

/-- A redirectInfo option carrying no truthy redirect URL. -/
def noUrl : Option RedirectInfo → Bool
  | none => true
  | some ri =>
    match ri.url with
    | none => true
    | some u => decide (u = "")

/-- An upstream data object whose instrumentResponse carries no
redirectInfo at all. -/
def noRedirectInfo (dd : UpData) : Bool :=
  match dd.instrumentResponse with
  | some ir => ir.redirectInfo.isNone
  | none => true

/-- Generic Except discriminator. -/
def isOkE {α β : Type} : Except α β → Bool
  | .ok _ => true
  | .error _ => false

/-- Transaction id of a successful pre-call stage, if any. -/
def exTxid : Except PayResponse Envelope → Option String
  | .ok e => some e.transactionId
  | .error _ => none

/-- HTTP status of an early (pre-call) response, if any; None means the
outbound call to the gateway goes ahead. -/
def errStatus : Except PayResponse Envelope → Option Nat
  | .error r => some r.status
  | .ok _ => none

/-- Whether the server.js status pre-call stage reaches the outbound
fetch. -/
def statusIsCall : StatusOutcome → Bool
  | .call _ _ _ => true
  | .thrown _ => false

namespace ServerJs

/-- Transaction id of src/server.js line 35: the MT tag followed by
Date.now() alone. -/
def transactionId (now : Nat) : String := "MT" ++ toString now

/-- User id of src/server.js line 36. -/
def userId (now : Nat) : String := "MUID" ++ toString now

/-- Minor-unit amount of src/server.js line 43: parseInt(amount) * 100;
NaN (None) when the amount is a non-numeric string. -/
def payAmountMinor : AmountV → Option Int
  | .num q => some (jsTrunc q * 100)
  | .nan => none

/-- The payload object of src/server.js lines 39-51. -/
def buildPayload (mid txid uid : String) (a : AmountV) (mob : String) : Payload :=
  { merchantId := mid
    merchantTransactionId := txid
    merchantUserId := uid
    amount := payAmountMinor a
    redirectUrl := "https://phonepe-framer-backend.onrender.com/callback/" ++ txid
    redirectMode := "POST"
    callbackUrl := "https://phonepe-framer-backend.onrender.com/callback/" ++ txid
    mobileNumber := mob
    instrumentType := "PAY_PAGE" }

/-- X-VERIFY computation of src/server.js lines 56-57. -/
def xVerify (sha : String → String) (payloadBase64 saltKey saltIndex : String) : String :=
  let dataToHash := payloadBase64 ++ "/pg/v1/pay" ++ saltKey
  sha dataToHash ++ "###" ++ saltIndex

/-- Endpoint selection of src/server.js lines 63-66 (both branches are
the same URL in this draft). -/
def payApiUrl (mid : String) : String :=
  if strLeads mid "M" && !(strHasSub mid "TEST") then
    "https://api.phonepe.com/apis/hermes/pg/v1/pay"
  else
    "https://api.phonepe.com/apis/hermes/pg/v1/pay"

/-- The 400 missing-fields response of src/server.js lines 18-22. -/
def missingFieldsResp (req : PayReq) : PayResponse :=
  { status := 400
    error := some "Missing required fields"
    required := some ["amount", "mobile", "name"]
    received := some req }

/-- The 500 configuration-error response of src/server.js line 32. -/
def configErrorResp : PayResponse :=
  { status := 500, error := some "Server configuration error" }

/-- Pre-call stage of the src/server.js POST /pay handler (lines 12-79):
field-presence check, environment check, payload construction and
signing, ending at the fetch call. -/
def payStage1 (sha : String → String) (ser : Payload → String) (env : Env)
    (req : PayReq) (now : Nat) : Except PayResponse Envelope :=
  match req.amount, req.mobile, req.name with
  | some a, some mob, some nam =>
    if truthyAmt (some a) && decide (¬ mob = "") && decide (¬ nam = "") then
      match env.merchantId, env.saltKey, env.saltIndex with
      | some mid, some sk, some si =>
        if decide (¬ mid = "") && decide (¬ sk = "") && decide (¬ si = "") then
          let txid := transactionId now
          let payload := buildPayload mid txid (userId now) a mob
          let pb := ser payload
          .ok { apiUrl := payApiUrl mid
                xVerify := xVerify sha pb sk si
                payloadBase64 := pb
                transactionId := txid
                payload := payload }
        else .error configErrorResp
      | _, _, _ => .error configErrorResp
    else .error (missingFieldsResp req)
  | _, _, _ => .error (missingFieldsResp req)

/-- The shared 400 rejection response of src/server.js lines 103-108. -/
def payReject (d : Upstream) : PayResponse :=
  { status := 400
    error := some "Payment initiation failed"
    details := some d
    message := some (jsOr d.message "Unknown error")
    code := some (jsOr d.code "UNKNOWN") }

/-- The success-shape condition of src/server.js line 95. -/
def paySuccessShape (d : Upstream) : Bool :=
  match d.success, d.data with
  | some true, some dd =>
    match dd.instrumentResponse with
    | some ir => ir.redirectInfo.isSome
    | none => false
  | _, _ => false

/-- Post-call translation of the src/server.js POST /pay handler
(lines 95-109): a reply passing the success-shape test yields the
success body, everything else falls into the single rejection branch. -/
def payStage2 (txid : String) (d : Upstream) : PayResponse :=
  match d.success, d.data with
  | some true, some dd =>
    match dd.instrumentResponse with
    | some ir =>
      match ir.redirectInfo with
      | some ri =>
        { status := 200, success := some true, url := ri.url
          transactionId := some txid }
      | none => payReject d
    | none => payReject d
  | _, _ => payReject d

/-- The POST /callback/:transactionId handler of src/server.js
lines 120-127: a fixed acknowledgment body with neither the transaction
id nor a timestamp. -/
def callbackRespond (_txid : String) : CallbackResponse :=
  { status := 200, message := some "Callback received" }

/-- Pre-call part of the src/server.js GET /status handler
(lines 138-161).  There is no configuration check: the canonical string
and hash are computed even when env values are missing (an absent value
renders as the text undefined inside them), and only a missing merchant
id stops the handler, via a thrown TypeError at the startsWith call,
after the hash was already computed. -/
def statusStage1 (sha : String → String) (env : Env) (txid : String) : StatusOutcome :=
  let dataToHash := "/pg/v1/status/" ++ jsShow env.merchantId ++ "/" ++ txid ++ jsShow env.saltKey
  let hash := sha dataToHash ++ "###" ++ jsShow env.saltIndex
  match env.merchantId with
  | none => .thrown "Cannot read properties of undefined"
  | some mid =>
    if strLeads mid "M" && !(strHasSub mid "TEST") then
      .call ("https://api.phonepe.com/apis/hermes/pg/v1/status/" ++ mid ++ "/" ++ txid) hash mid
    else
      .call ("https://api-preprod.phonepe.com/apis/hermes/pg/v1/status/" ++ mid ++ "/" ++ txid) hash mid

/-- The health body of src/server.js lines 171-181: a fixed status
string, the timestamp, and one presence boolean per secret. -/
structure Health where
  status : String
  timestamp : String
  merchantIdSet : Bool
  saltKeySet : Bool
  saltIndexSet : Bool
deriving DecidableEq

/-- The GET /health handler of src/server.js lines 171-181. -/
def healthRespond (env : Env) (ts : String) : Health :=
  { status := "Server is running"
    timestamp := ts
    merchantIdSet := truthyStr env.merchantId
    saltKeySet := truthyStr env.saltKey
    saltIndexSet := truthyStr env.saltIndex }

end ServerJs

namespace Draft2

/-- validateMobileNumber of src/unnamed/part_000 lines 76-79: the
ten-digit pattern starting with a digit 6 through 9. -/
def validateMobileNumber (m : String) : Bool :=
  match m.data with
  | c :: rest =>
    (('6' ≤ c) && (c ≤ '9')) && (rest.length == 9) && rest.all Char.isDigit
  | [] => false

/-- validateAmount of src/unnamed/part_000 lines 81-84: parseFloat must
be a number strictly above 0 and at most 100000. -/
def validateAmount : Option AmountV → Bool
  | some (.num q) => decide (0 < q) && decide (q ≤ 100000)
  | some .nan => false
  | none => false

/-- Transaction id of src/unnamed/part_000 lines 134-135: the MT tag,
Date.now(), and a short uppercased random suffix. -/
def transactionId (now : Nat) (rand : String) : String :=
  "MT" ++ toString now ++ rand

/-- Minor-unit amount of src/unnamed/part_000 line 146:
Math.round(parseFloat(amount) * 100). -/
def payAmountMinor : AmountV → Option Int
  | .num q => some (jsRound (q * 100))
  | .nan => none

/-- The payload object of src/unnamed/part_000 lines 142-154. -/
def buildPayload (env : Env) (mid txid uid : String) (a : AmountV) (mob : String) : Payload :=
  let baseUrl := jsOr env.baseUrl "http://localhost:3000"
  { merchantId := mid
    merchantTransactionId := txid
    merchantUserId := uid
    amount := payAmountMinor a
    redirectUrl := baseUrl ++ "/callback/" ++ txid
    redirectMode := "POST"
    callbackUrl := baseUrl ++ "/callback/" ++ txid
    mobileNumber := mob
    instrumentType := "PAY_PAGE" }

/-- X-VERIFY computation of src/unnamed/part_000 lines 163-165. -/
def xVerify (sha : String → String) (payloadBase64 saltKey saltIndex : String) : String :=
  let dataToHash := payloadBase64 ++ "/pg/v1/pay" ++ saltKey
  let hash := sha dataToHash
  hash ++ "###" ++ saltIndex

/-- Endpoint selection of src/unnamed/part_000 lines 172-178. -/
def payApiUrl (env : Env) (mid : String) : String :=
  if (env.nodeEnv == some "production") && strLeads mid "M" && !(strHasSub mid "TEST") then
    "https://api.phonepe.com/apis/hermes/pg/v1/pay"
  else
    "https://api-preprod.phonepe.com/apis/hermes/pg/v1/pay"

/-- The 400 mobile-format response of src/unnamed/part_000
lines 100-104. -/
def mobileErrResp : PayResponse :=
  { status := 400
    error := some "Invalid mobile number format. Must be 10 digits starting with 6-9" }

/-- The 400 amount response of src/unnamed/part_000 lines 107-111. -/
def amountErrResp : PayResponse :=
  { status := 400
    error := some "Invalid amount. Must be between ₹1 and ₹1,00,000" }

/-- The 400 name-length response of src/unnamed/part_000
lines 114-118. -/
def nameErrResp : PayResponse :=
  { status := 400
    error := some "Name must be between 2 and 50 characters" }

/-- The 500 configuration-error response of src/unnamed/part_000
lines 127-130. -/
def configErrorResp : PayResponse :=
  { status := 500
    error := some "Server configuration error"
    detailsText := some "Required environment variables not set" }

/-- Pre-call stage of the src/unnamed/part_000 POST /pay handler
(lines 86-193): presence check, mobile format check, amount check, name
length check, environment check, then payload construction and signing,
ending at the fetch call. -/
def payStage1 (sha : String → String) (ser : Payload → String) (env : Env)
    (req : PayReq) (now : Nat) (rand : String) : Except PayResponse Envelope :=
  match req.amount, req.mobile, req.name with
  | some a, some mob, some nam =>
    if truthyAmt (some a) && decide (¬ mob = "") && decide (¬ nam = "") then
      if !(validateMobileNumber mob) then .error mobileErrResp
      else if !(validateAmount (some a)) then .error amountErrResp
      else if nam.length < 2 ∨ 50 < nam.length then .error nameErrResp
      else
        match env.merchantId, env.saltKey, env.saltIndex with
        | some mid, some sk, some si =>
          if decide (¬ mid = "") && decide (¬ sk = "") && decide (¬ si = "") then
            let txid := transactionId now rand
            let payload := buildPayload env mid txid ("MUID" ++ toString now) a mob
            let pb := ser payload
            .ok { apiUrl := payApiUrl env mid
                  xVerify := xVerify sha pb sk si
                  payloadBase64 := pb
                  transactionId := txid
                  payload := payload }
          else .error configErrorResp
        | _, _, _ => .error configErrorResp
    else .error (ServerJs.missingFieldsResp req)
  | _, _, _ => .error (ServerJs.missingFieldsResp req)

/-- The generic 400 rejection response of src/unnamed/part_000
lines 233-238. -/
def payReject (d : Upstream) : PayResponse :=
  { status := 400
    error := some "Payment initiation failed"
    details := some d
    message := some (jsOr d.message "Unknown error from PhonePe")
    code := some (jsOr d.code "UNKNOWN_ERROR") }

/-- The distinct 400 missing-redirect-URL response of
src/unnamed/part_000 lines 226-229. -/
def missingRedirect (d : Upstream) : PayResponse :=
  { status := 400
    error := some "Payment initiation failed - missing redirect URL"
    details := some d }

/-- Post-call translation of the src/unnamed/part_000 POST /pay handler
(lines 214-239): success with a truthy redirect URL yields the success
body; success without one yields the distinct missing-redirect-URL
error; everything else yields the generic rejection. -/
def payStage2 (txid : String) (d : Upstream) : PayResponse :=
  match d.success, d.data with
  | some true, some dd =>
    match dd.instrumentResponse with
    | some ir =>
      match ir.redirectInfo with
      | some ri =>
        match ri.url with
        | some u =>
          if u = "" then missingRedirect d
          else
            { status := 200, success := some true, url := some u
              transactionId := some txid, merchantTransactionId := some txid }
        | none => missingRedirect d
      | none => missingRedirect d
    | none => payReject d
  | _, _ => payReject d

/-- Pre-call stage of getTransactionStatus, src/unnamed/part_000
lines 309-339: an environment check that throws before any signing,
then the canonical status string, hash and outbound call. -/
def statusStage1 (sha : String → String) (env : Env) (txid : String) :
    Except String StatusCall :=
  match env.merchantId, env.saltKey, env.saltIndex with
  | some mid, some sk, some si =>
    if decide (¬ mid = "") && decide (¬ sk = "") && decide (¬ si = "") then
      let dataToHash := "/pg/v1/status/" ++ mid ++ "/" ++ txid ++ sk
      let xv := sha dataToHash ++ "###" ++ si
      if (env.nodeEnv == some "production") && strLeads mid "M" && !(strHasSub mid "TEST") then
        .ok { url := "https://api.phonepe.com/apis/hermes/pg/v1/status/" ++ mid ++ "/" ++ txid
              xVerify := xv, merchantHeader := mid }
      else
        .ok { url := "https://api-preprod.phonepe.com/apis/hermes/pg/v1/status/" ++ mid ++ "/" ++ txid
              xVerify := xv, merchantHeader := mid }
    else .error "Missing environment variables"
  | _, _, _ => .error "Missing environment variables"

/-- Overall outcome of an awaited getTransactionStatus call: a failed
environment check throws by itself; otherwise the outcome is that of the
network fetch (net), which is an explicit parameter. -/
def getStatusOutcome (sha : String → String) (env : Env) (txid : String)
    (net : Except String Upstream) : Except String Upstream :=
  match statusStage1 sha env txid with
  | .error e => .error e
  | .ok _ => net

/-- The acknowledgment body of the src/unnamed/part_000 callback handler
(lines 268-272), carrying the path transaction id and the receipt
timestamp. -/
def callbackAck (txid ts : String) : CallbackResponse :=
  { status := 200
    message := some "Callback received successfully"
    transactionId := some txid
    timestamp := some ts }

/-- The POST /callback/:transactionId handler of src/unnamed/part_000
lines 251-277: when the merchant id is set, it awaits a cross-verifying
getTransactionStatus inside the same try block, so a throw there lands
in the catch and produces the 500 instead of the acknowledgment. -/
def callbackRespond (sha : String → String) (env : Env)
    (net : Except String Upstream) (txid ts : String) : CallbackResponse :=
  if truthyStr env.merchantId then
    match getStatusOutcome sha env txid net with
    | .error _ => { status := 500, error := some "Callback processing failed" }
    | .ok _ => callbackAck txid ts
  else callbackAck txid ts

/-- The health body of src/unnamed/part_000 lines 394-411. -/
structure Health where
  status : String
  timestamp : String
  merchantIdSet : Bool
  saltKeySet : Bool
  saltIndexSet : Bool
  baseUrlSet : Bool
  nodeEnv : String
  ready : Bool
deriving DecidableEq

/-- The GET /health handler of src/unnamed/part_000 lines 394-411. -/
def healthRespond (env : Env) (ts : String) : Health :=
  { status :=
      if secretsSet env then "Healthy" else "Configuration incomplete"
    timestamp := ts
    merchantIdSet := truthyStr env.merchantId
    saltKeySet := truthyStr env.saltKey
    saltIndexSet := truthyStr env.saltIndex
    baseUrlSet := truthyStr env.baseUrl
    nodeEnv := jsOr env.nodeEnv "development"
    ready := secretsSet env }

end Draft2

/-- The claim's mobile-pattern predicate lifted to a possibly-missing
field (a regex test of undefined coerces it to the non-matching text
undefined). -/
def mobileMatches : Option String → Bool
  | none => false
  | some m => Draft2.validateMobileNumber m

deriving instance DecidableEq for Except

/-- A concrete stand-in hex digest used to evaluate the handlers on
closed inputs (the claims constrain only how the digest output is
assembled, never its value). -/
def constSha : String → String := fun s => "sha256:" ++ s

/-- A concrete stand-in for the JSON-serialize-then-base64 step, used to
evaluate the handlers on closed inputs. -/
def constSer : Payload → String := fun _ => "PB64"

/-- A fully configured environment fixture. -/
def envFull : Env :=
  { merchantId := some "MID1", saltKey := some "KEY1", saltIndex := some "1"
    baseUrl := none, nodeEnv := none }

/-- An environment fixture missing the signing key only. -/
def envNoSalt : Env :=
  { merchantId := some "MTEST", saltKey := none, saltIndex := some "1"
    baseUrl := none, nodeEnv := none }

/-- A wholly unset environment fixture. -/
def envNone : Env :=
  { merchantId := none, saltKey := none, saltIndex := none
    baseUrl := none, nodeEnv := none }

/-- A well-formed request fixture. -/
def reqA : PayReq :=
  { amount := some (.num 10), mobile := some "9123456789", name := some "Alice" }

/-- A second, different well-formed request fixture. -/
def reqB : PayReq :=
  { amount := some (.num 20), mobile := some "8123456789", name := some "Bob" }

/-- The spec's malformed-success upstream fixture: success true, an
instrumentResponse object, but no redirectInfo. -/
def upMalC : Upstream :=
  { success := some true
    data := some { instrumentResponse := some { redirectInfo := none } }
    message := none, code := none }

/-- A plain rejected upstream fixture: success false. -/
def upRejC : Upstream :=
  { success := some false, data := none, message := none, code := none }

/-- The spec's rejected upstream fixture carrying code X. -/
def upXC : Upstream :=
  { success := some false, data := none, message := none, code := some "X" }

/-- Helper: the server.js X-VERIFY computation coincides syntactically
with the spec's signature formula. -/
theorem serverJs_xVerify_spec (sha : String → String) (p k i : String) :
    ServerJs.xVerify sha p k i = specSignature sha p k i := rfl

/-- Helper: the second draft's X-VERIFY computation coincides with the
spec's signature formula. -/
theorem draft2_xVerify_spec (sha : String → String) (p k i : String) :
    Draft2.xVerify sha p k i = specSignature sha p k i := rfl

/-- Claim C1: for every payload base64 string, signing key and key index,
the X-VERIFY value sent by the initiate-payment handlers equals the hex
SHA-256 digest of the payload, then the literal path suffix /pg/v1/pay,
then the secret key, followed by the triple-hash separator and the key
index, in exactly this order. -/
theorem c1_sig :
    (∀ (sha : String → String) (ser : Payload → String) (mid sk si : String)
       (bu ne : Option String) (req : PayReq) (now : Nat) (e : Envelope),
       ServerJs.payStage1 sha ser ⟨some mid, some sk, some si, bu, ne⟩ req now = .ok e →
       e.xVerify = specSignature sha e.payloadBase64 sk si)
  ∧ (∀ (sha : String → String) (ser : Payload → String) (mid sk si : String)
       (bu ne : Option String) (req : PayReq) (now : Nat) (rand : String) (e : Envelope),
       Draft2.payStage1 sha ser ⟨some mid, some sk, some si, bu, ne⟩ req now rand = .ok e →
       e.xVerify = specSignature sha e.payloadBase64 sk si) := by
  constructor
  · intro sha ser mid sk si bu ne req now e h
    rcases req with ⟨ra, rm, rn⟩
    rcases ra with _ | a <;> rcases rm with _ | mob <;> rcases rn with _ | nam <;>
      simp only [ServerJs.payStage1] at h <;> try exact Except.noConfusion h
    split at h
    · split at h
      · injection h with h
        subst h
        rfl
      · exact Except.noConfusion h
    · exact Except.noConfusion h
  · intro sha ser mid sk si bu ne req now rand e h
    rcases req with ⟨ra, rm, rn⟩
    rcases ra with _ | a <;> rcases rm with _ | mob <;> rcases rn with _ | nam <;>
      simp only [Draft2.payStage1] at h <;> try exact Except.noConfusion h
    split at h
    · split at h
      · exact Except.noConfusion h
      · split at h
        · exact Except.noConfusion h
        · split at h
          · exact Except.noConfusion h
          · split at h
            · injection h with h
              subst h
              rfl
            · exact Except.noConfusion h
    · exact Except.noConfusion h

/-- Witness for C1 at a concrete request, configuration and clock
value. -/
theorem c1_sig_w :
    (⟨"https://api.phonepe.com/apis/hermes/pg/v1/pay",
      "sha256:PB64/pg/v1/payKEY1###1", "PB64", "MT0",
      ServerJs.buildPayload "MID1" "MT0" "MUID0" (AmountV.num 10) "9123456789"⟩ :
      Envelope).xVerify = specSignature constSha "PB64" "KEY1" "1" :=
  c1_sig.1 constSha constSer "MID1" "KEY1" "1" none none reqA 0
    ⟨"https://api.phonepe.com/apis/hermes/pg/v1/pay",
     "sha256:PB64/pg/v1/payKEY1###1", "PB64", "MT0",
     ServerJs.buildPayload "MID1" "MT0" "MUID0" (AmountV.num 10) "9123456789"⟩
    (by decide)

/-- Counterexample to C4: in src/server.js the transaction id is the MT
tag plus Date.now() alone, so two initiate-payment calls in the same
millisecond, even with different request bodies, produce the same
merchantTransactionId. -/
theorem c4_cex :
    exTxid (ServerJs.payStage1 constSha constSer envFull reqA 123) = some "MT123"
  ∧ exTxid (ServerJs.payStage1 constSha constSer envFull reqB 123) = some "MT123" := by
  exact ⟨by decide, by decide⟩

/-- Claim C4 as amended: in the second draft the transaction id combines
the MT tag, the timestamp and a random suffix, so two calls in the same
millisecond with different random suffixes yield distinct ids; in
src/server.js the id is the MT tag plus the timestamp alone. -/
theorem c4_amended :
    (∀ (now : Nat) (r1 r2 : String), r1 ≠ r2 →
       Draft2.transactionId now r1 ≠ Draft2.transactionId now r2)
  ∧ (∀ now : Nat, ServerJs.transactionId now = "MT" ++ toString now) := by
  constructor
  · intro now r1 r2 hne h
    apply hne
    have h2 := congrArg String.data h
    simp only [Draft2.transactionId, String.data_append] at h2
    have h3 := List.append_cancel_left h2
    rcases r1 with ⟨l1⟩
    rcases r2 with ⟨l2⟩
    exact congrArg String.mk h3
  · intro now
    rfl

/-- Witness for the amended C4 at a concrete timestamp and two concrete
random suffixes. -/
theorem c4_amended_w :
    Draft2.transactionId 7 "AAAA" ≠ Draft2.transactionId 7 "BBBB" :=
  c4_amended.1 7 "AAAA" "BBBB" (by decide)

/-- Helper: JS truncation agrees with the integer on integer-valued
rationals. -/
theorem jsTrunc_intCast (n : ℤ) : jsTrunc (n : ℚ) = n := by
  unfold jsTrunc
  split
  · exact Int.ceil_intCast n
  · exact Int.floor_intCast n

/-- Helper: on an integer-valued rational the truncating conversion of
src/server.js and the rounding conversion of the spec agree. -/
theorem jsTrunc_mul_eq_specMinorAmount (q : ℚ) (h : q.den = 1) :
    jsTrunc q * 100 = specMinorAmount q := by
  obtain ⟨n, rfl⟩ : ∃ n : ℤ, ((n : ℚ)) = q := ⟨q.num, (Rat.den_eq_one_iff q).mp h⟩
  rw [jsTrunc_intCast]
  unfold specMinorAmount jsRound
  have h2 : ((n : ℚ)) * 100 = ((n * 100 : ℤ) : ℚ) := by
    push_cast
    ring
  rw [h2, Int.floor_int_add]
  norm_num

/-- Counterexample to C2: with the truncating conversion of
src/server.js line 43, the valid input amount 21/2 (10.5 rupees) yields
payload amount 1000, not the nearest-integer 1050 the claim requires. -/
theorem c2_cex :
    ServerJs.payAmountMinor (AmountV.num (21/2)) ≠ some (specMinorAmount (21/2)) := by
  have h2 : jsTrunc (21/2 : ℚ) = 10 := by unfold jsTrunc; norm_num
  have h3 : specMinorAmount (21/2) = 1050 := by unfold specMinorAmount jsRound; norm_num
  show some (jsTrunc (21/2 : ℚ) * 100) ≠ some (specMinorAmount (21/2))
  rw [h2, h3]
  simp

/-- Claim C2 as amended: in src/server.js the payload amount equals
parseInt(amount) * 100, i.e. trunc(a) * 100 — always an integer, equal
to round(a * 100) whenever the amount is a whole number, and 1000 for
amount 10 — while the second draft computes round(a * 100) exactly as
the claim states. -/
theorem c2_amended :
    (∀ q : ℚ, ServerJs.payAmountMinor (.num q) = some (jsTrunc q * 100))
  ∧ (∀ q : ℚ, q.den = 1 → ServerJs.payAmountMinor (.num q) = some (specMinorAmount q))
  ∧ (ServerJs.payAmountMinor (.num 10) = some 1000)
  ∧ (∀ q : ℚ, Draft2.payAmountMinor (.num q) = some (specMinorAmount q))
  ∧ (Draft2.payAmountMinor (.num 10) = some 1000)
  ∧ (∀ (sha : String → String) (ser : Payload → String) (env : Env) (req : PayReq)
       (now : Nat) (e : Envelope) (q : ℚ),
       req.amount = some (.num q) →
       ServerJs.payStage1 sha ser env req now = .ok e →
       e.payload.amount = some (jsTrunc q * 100)) := by
  refine ⟨fun q => rfl, ?_, ?_, fun q => rfl, ?_, ?_⟩
  · intro q h
    show some (jsTrunc q * 100) = some (specMinorAmount q)
    rw [jsTrunc_mul_eq_specMinorAmount q h]
  · show some (jsTrunc (10:ℚ) * 100) = some 1000
    have h10 : jsTrunc (10:ℚ) = 10 := by unfold jsTrunc; norm_num
    rw [h10]
    norm_num
  · show some (jsRound ((10:ℚ) * 100)) = some 1000
    have h10 : jsRound ((10:ℚ) * 100) = 1000 := by unfold jsRound; norm_num
    rw [h10]
  · intro sha ser env req now e q hq h
    rcases req with ⟨ra, rm, rn⟩
    replace hq : ra = some (.num q) := hq
    subst hq
    rcases rm with _ | mob <;> rcases rn with _ | nam <;>
      simp only [ServerJs.payStage1] at h <;> try exact Except.noConfusion h
    split at h
    · split at h <;> try exact Except.noConfusion h
      split at h
      · injection h with h
        subst h
        rfl
      · exact Except.noConfusion h
    · exact Except.noConfusion h

/-- Witness for the amended C2 at the whole-number amount 10. -/
theorem c2_amended_w :
    ServerJs.payAmountMinor (.num 10) = some (specMinorAmount 10) :=
  c2_amended.2.1 10 rfl

/-- Counterexample to C3: src/server.js performs no mobile-format check,
so a request with the non-matching mobile 12345 (and otherwise valid
fields, full configuration) sails through to the outbound gateway call
instead of being rejected. -/
theorem c3_cex :
    isOkE (ServerJs.payStage1 constSha constSer envFull
      ⟨some (.num 10), some "12345", some "John"⟩ 0) = true := by decide

/-- Claim C3 as amended: in the second draft every request whose mobile
fails the pattern is rejected with a 400 before any payload is built or
call made, and a matching mobile never triggers the mobile-format error;
src/server.js checks only presence, so non-matching mobiles pass
through. -/
theorem c3_amended :
    (∀ (sha : String → String) (ser : Payload → String) (env : Env) (req : PayReq)
       (now : Nat) (rand : String),
       mobileMatches req.mobile = false →
       errStatus (Draft2.payStage1 sha ser env req now rand) = some 400)
  ∧ (∀ (sha : String → String) (ser : Payload → String) (env : Env) (req : PayReq)
       (now : Nat) (rand : String) (r : PayResponse),
       mobileMatches req.mobile = true →
       Draft2.payStage1 sha ser env req now rand = .error r →
       r.error ≠ some "Invalid mobile number format. Must be 10 digits starting with 6-9")
  ∧ Draft2.validateMobileNumber "9123456789" = true
  ∧ Draft2.validateMobileNumber "12345" = false := by
  refine ⟨?_, ?_, by decide, by decide⟩
  · intro sha ser env req now rand hm
    rcases req with ⟨ra, rm, rn⟩
    rcases rm with _ | mob
    · rcases ra with _ | a <;> rcases rn with _ | nam <;> rfl
    · replace hm : Draft2.validateMobileNumber mob = false := hm
      rcases ra with _ | a <;> rcases rn with _ | nam
      · rfl
      · rfl
      · rfl
      · simp only [Draft2.payStage1]
        split
        · rw [hm]
          rfl
        · rfl
  · intro sha ser env req now rand r hm h
    rcases req with ⟨ra, rm, rn⟩
    rcases rm with _ | mob
    · replace hm : mobileMatches none = true := hm
      exact absurd hm (by decide)
    · replace hm : Draft2.validateMobileNumber mob = true := hm
      rcases ra with _ | a <;> rcases rn with _ | nam <;>
        simp only [Draft2.payStage1, hm, Bool.not_true] at h <;>
        repeat' split at h
      all_goals first
        | exact Except.noConfusion h
        | (rename_i hc; exact Bool.noConfusion hc)
        | (injection h with h; subst h;
           simp [ServerJs.missingFieldsResp, Draft2.mobileErrResp, Draft2.amountErrResp,
                 Draft2.nameErrResp, Draft2.configErrorResp])

/-- Witness for the amended C3 at the spec's non-matching mobile
12345. -/
theorem c3_amended_w :
    errStatus (Draft2.payStage1 constSha constSer envFull
      ⟨some (.num 10), some "12345", some "John"⟩ 0 "AB12") = some 400 :=
  c3_amended.1 constSha constSer envFull
    ⟨some (.num 10), some "12345", some "John"⟩ 0 "AB12" (by decide)

/-- Counterexample to C9: src/server.js validates only presence and
truthiness of the amount, so the negative amount -5 (with valid mobile
and name, full configuration) is not rejected: the handler proceeds to
the outbound gateway call. -/
theorem c9_cex :
    isOkE (ServerJs.payStage1 constSha constSer envFull
      ⟨some (.num (-5)), some "9123456789", some "John"⟩ 0) = true := by decide

/-- Claim C9 as amended: in the second draft every request whose amount
is zero, negative, non-numeric or above the 100000 ceiling is rejected
with a 400 before any outbound call; src/server.js rejects only falsy
amounts (zero or missing, as a missing-field error) and forwards
negative, oversized or non-numeric amounts to the gateway. -/
theorem c9_amended :
    (∀ (sha : String → String) (ser : Payload → String) (env : Env) (req : PayReq)
       (now : Nat) (rand : String) (v : AmountV),
       req.amount = some v →
       badAmount v = true →
       errStatus (Draft2.payStage1 sha ser env req now rand) = some 400)
  ∧ Draft2.validateAmount (some (.num 0)) = false
  ∧ Draft2.validateAmount (some (.num (-5))) = false
  ∧ Draft2.validateAmount (some .nan) = false
  ∧ Draft2.validateAmount (some (.num (10000001/100))) = false
  ∧ Draft2.validateAmount (some (.num 10)) = true := by
  refine ⟨?_, by decide, by decide, rfl, ?_, by decide⟩
  · intro sha ser env req now rand v hv hbad
    rcases req with ⟨ra, rm, rn⟩
    replace hv : ra = some v := hv
    subst hv
    have hval : Draft2.validateAmount (some v) = false := by
      rcases v with q | _
      · have hq : q ≤ 0 ∨ 100000 < q := by simpa [badAmount] using hbad
        show (decide (0 < q) && decide (q ≤ 100000)) = false
        rcases hq with h1 | h1
        · rw [decide_eq_false (by linarith : ¬ (0 < q))]
          exact Bool.false_and _
        · rw [decide_eq_false (by linarith : ¬ (q ≤ 100000))]
          exact Bool.and_false _
      · rfl
    rcases rm with _ | mob <;> rcases rn with _ | nam
    · rfl
    · rfl
    · rfl
    · simp only [Draft2.payStage1]
      split
      · split
        · rfl
        · rw [hval]
          rfl
      · rfl
  · show (decide ((0:ℚ) < 10000001/100) && decide ((10000001:ℚ)/100 ≤ 100000)) = false
    rw [decide_eq_false (by norm_num : ¬ ((10000001:ℚ)/100 ≤ 100000))]
    exact Bool.and_false _

/-- Witness for the amended C9 at the negative amount -5. -/
theorem c9_amended_w :
    errStatus (Draft2.payStage1 constSha constSer envFull
      ⟨some (.num (-5)), some "9123456789", some "John"⟩ 0 "AB12") = some 400 :=
  c9_amended.1 constSha constSer envFull
    ⟨some (.num (-5)), some "9123456789", some "John"⟩ 0 "AB12"
    (AmountV.num (-5)) rfl (by decide)

/-- Counterexample to C5: in src/server.js a success-flagged reply with
an instrumentResponse but no redirectInfo falls into the same rejection
branch as a success-false reply — identical error, message, code and
status — so there is no distinct MalformedUpstreamSuccess error kind. -/
theorem c5_cex :
    (ServerJs.payStage2 "MT123" upMalC).error = (ServerJs.payStage2 "MT123" upRejC).error
  ∧ (ServerJs.payStage2 "MT123" upMalC).message = (ServerJs.payStage2 "MT123" upRejC).message
  ∧ (ServerJs.payStage2 "MT123" upMalC).code = (ServerJs.payStage2 "MT123" upRejC).code
  ∧ (ServerJs.payStage2 "MT123" upMalC).status = 400
  ∧ (ServerJs.payStage2 "MT123" upRejC).status = 400 := by decide

/-- Claim C5 as amended: only the second draft has the claimed distinct
failure case — every success-flagged reply without a truthy redirect
URL yields its 400 missing-redirect-URL error, distinguishable from its
generic rejection.  src/server.js has no such distinct case: a
success-flagged reply lacking the redirectInfo object falls into the
same generic 400 rejection branch as a success-false reply, and a
success-flagged reply whose redirectInfo object is present but carries
no url is even reported to the client as a 200 success with no url. -/
theorem c5_amended :
    (∀ (txid : String) (rio : Option RedirectInfo) (m c : Option String),
       noUrl rio = true →
       Draft2.payStage2 txid ⟨some true, some ⟨some ⟨rio⟩⟩, m, c⟩
         = Draft2.missingRedirect ⟨some true, some ⟨some ⟨rio⟩⟩, m, c⟩)
  ∧ (∀ d, (Draft2.missingRedirect d).error
        = some "Payment initiation failed - missing redirect URL")
  ∧ (∀ d, (Draft2.payReject d).error = some "Payment initiation failed")
  ∧ (∀ d, (Draft2.missingRedirect d).status = 400)
  ∧ (∀ (txid : String) (dd : UpData) (m c : Option String),
       noRedirectInfo dd = true →
       ServerJs.payStage2 txid ⟨some true, some dd, m, c⟩
         = ServerJs.payReject ⟨some true, some dd, m, c⟩)
  ∧ (∀ (txid : String) (u : Option String) (m c : Option String),
       ServerJs.payStage2 txid ⟨some true, some ⟨some ⟨some ⟨u⟩⟩⟩, m, c⟩
         = { status := 200, success := some true, url := u,
             transactionId := some txid })
  ∧ (∀ d, (Draft2.missingRedirect d).error ≠ (Draft2.payReject d).error) := by
  refine ⟨?_, fun d => rfl, fun d => rfl, fun d => rfl, ?_,
    fun txid u m c => rfl, ?_⟩
  · intro txid rio m c hno
    rcases rio with _ | ⟨u⟩
    · rfl
    · rcases u with _ | u
      · rfl
      · have hu : u = "" := by simpa [noUrl] using hno
        subst hu
        rfl
  · intro txid dd m c hno
    rcases dd with ⟨ir⟩
    rcases ir with _ | ⟨ri⟩
    · rfl
    · rcases ri with _ | ri
      · rfl
      · replace hno : false = true := hno
        exact Bool.noConfusion hno
  · intro d
    simp [Draft2.missingRedirect, Draft2.payReject]

/-- Witness for the amended C5 at the spec's malformed-success reply
(success true, empty instrumentResponse). -/
theorem c5_amended_w :
    Draft2.payStage2 "T1" ⟨some true, some ⟨some ⟨none⟩⟩, none, none⟩
      = Draft2.missingRedirect ⟨some true, some ⟨some ⟨none⟩⟩, none, none⟩ :=
  c5_amended.1 "T1" none none none (by decide)

/-- Counterexample to C6: in src/server.js the 400 rejection for a
success-false reply with upstream code X does surface the code
verbatim, but carries no transactionId field at all, contrary to the
claim that the locally generated transaction id accompanies it. -/
theorem c6_cex :
    (ServerJs.payStage2 "MT123" upXC).status = 400
  ∧ (ServerJs.payStage2 "MT123" upXC).code = some "X"
  ∧ (ServerJs.payStage2 "MT123" upXC).transactionId = none := by decide

/-- Claim C6 as amended: every upstream reply failing the success-shape
test yields the 400 rejection carrying the upstream message and code
verbatim (with the Unknown-error and UNKNOWN defaults when absent or
empty), but in both versions the rejection body omits the locally
generated transaction id — only the success response carries it. -/
theorem c6_amended :
    (∀ (txid : String) (d : Upstream),
       ServerJs.paySuccessShape d = false →
       ServerJs.payStage2 txid d = ServerJs.payReject d)
  ∧ (∀ d, (ServerJs.payReject d).status = 400)
  ∧ (∀ d, (ServerJs.payReject d).transactionId = none)
  ∧ (∀ (d : Upstream) (c : String), d.code = some c → ¬ c = "" →
       (ServerJs.payReject d).code = some c)
  ∧ (∀ (d : Upstream) (m : String), d.message = some m → ¬ m = "" →
       (ServerJs.payReject d).message = some m)
  ∧ (∀ d, (Draft2.payReject d).transactionId = none) := by
  refine ⟨?_, fun d => rfl, fun d => rfl, ?_, ?_, fun d => rfl⟩
  · intro txid d hs
    rcases d with ⟨su, dd, m, c⟩
    rcases su with _ | b
    · rfl
    · rcases b
      · rfl
      · rcases dd with _ | ⟨ir⟩
        · rfl
        · rcases ir with _ | ⟨ri⟩
          · rfl
          · rcases ri with _ | ri
            · rfl
            · replace hs : true = false := hs
              exact Bool.noConfusion hs
  · intro d c hdc hc
    show some (jsOr d.code "UNKNOWN") = some c
    rw [hdc]
    simp [jsOr, hc]
  · intro d m hdm hm
    show some (jsOr d.message "Unknown error") = some m
    rw [hdm]
    simp [jsOr, hm]

/-- Witness for the amended C6 at the success-false reply carrying
code X. -/
theorem c6_amended_w :
    ServerJs.payStage2 "MT123" upXC = ServerJs.payReject upXC :=
  c6_amended.1 "MT123" upXC (by decide)

/-- Counterexample to C7: the src/server.js GET /status handler has no
configuration check — with the signing key missing it still computes an
X-VERIFY hash (over a canonical string containing the literal text
undefined) and proceeds to the outbound call, instead of returning a
500 configuration error before signing. -/
theorem c7_cex :
    ServerJs.statusStage1 constSha envNoSalt "T1"
      = StatusOutcome.call
          "https://api-preprod.phonepe.com/apis/hermes/pg/v1/status/MTEST/T1"
          "sha256:/pg/v1/status/MTEST/T1undefined###1" "MTEST" := by decide

/-- Claim C7 as amended: the /pay handlers and the second draft's
getTransactionStatus return the 500 configuration error before any
signing when a secret is missing, but the src/server.js GET /status
handler performs no such check: whenever the merchant id is present it
signs and proceeds to the outbound call regardless of the missing
signing key or key index. -/
theorem c7_amended :
    (∀ (sha : String → String) (ser : Payload → String) (env : Env)
       (a : AmountV) (mob nam : String) (now : Nat),
       truthyAmt (some a) = true → ¬ mob = "" → ¬ nam = "" →
       secretsSet env = false →
       ServerJs.payStage1 sha ser env ⟨some a, some mob, some nam⟩ now
         = .error ServerJs.configErrorResp)
  ∧ (∀ (sha : String → String) (env : Env) (txid : String),
       secretsSet env = false →
       Draft2.statusStage1 sha env txid = .error "Missing environment variables")
  ∧ (∀ (sha : String → String) (env : Env) (txid mid : String),
       env.merchantId = some mid →
       statusIsCall (ServerJs.statusStage1 sha env txid) = true) := by
  refine ⟨?_, ?_, ?_⟩
  · intro sha ser env a mob nam now ha hm hn hsec
    rcases env with ⟨em, ek, ei, eb, en⟩
    have hcond : (truthyAmt (some a) && decide (¬ mob = "") && decide (¬ nam = "")) = true := by
      simp [ha, hm, hn]
    rcases em with _ | mid <;> rcases ek with _ | sk <;> rcases ei with _ | si <;>
      simp only [ServerJs.payStage1, hcond] <;> try rfl
    replace hsec : (decide (¬ mid = "") && decide (¬ sk = "") && decide (¬ si = "")) = false := hsec
    rw [hsec]
    rfl
  · intro sha env txid hsec
    rcases env with ⟨em, ek, ei, eb, en⟩
    rcases em with _ | mid <;> rcases ek with _ | sk <;> rcases ei with _ | si <;> try rfl
    replace hsec : (decide (¬ mid = "") && decide (¬ sk = "") && decide (¬ si = "")) = false := hsec
    simp only [Draft2.statusStage1]
    rw [hsec]
    rfl
  · intro sha env txid mid hmid
    simp only [ServerJs.statusStage1, hmid]
    split <;> rfl

/-- Witness for the amended C7 at a wholly unset environment. -/
theorem c7_amended_w :
    ServerJs.payStage1 constSha constSer envNone
      ⟨some (.num 10), some "9123456789", some "John"⟩ 0
      = .error ServerJs.configErrorResp :=
  c7_amended.1 constSha constSer envNone (.num 10) "9123456789" "John" 0
    (by decide) (by decide) (by decide) (by decide)

/-- Counterexample to C8: in the second draft, when the merchant id is
configured and the best-effort cross-verifying status check throws, the
callback handler answers 500 Callback processing failed instead of the
acknowledgment — the status-check failure does fail the callback
response. -/
theorem c8_cex :
    Draft2.callbackRespond constSha envFull (Except.error "socket hang up")
      "T1" "2025-01-01T00:00:00.000Z"
      = { status := 500, error := some "Callback processing failed" } := by decide

/-- Helper: with all three secrets present and non-empty, the second
draft's status pre-call stage passes its configuration check and
reaches the outbound call. -/
theorem draft2_statusStage1_isOk (sha : String → String) (mid sk si : String)
    (eb en : Option String) (txid : String)
    (h1 : ¬ mid = "") (h2 : ¬ sk = "") (h3 : ¬ si = "") :
    ∃ c, Draft2.statusStage1 sha ⟨some mid, some sk, some si, eb, en⟩ txid
      = Except.ok c := by
  simp only [Draft2.statusStage1]
  split
  · split
    · exact ⟨_, rfl⟩
    · exact ⟨_, rfl⟩
  · rename_i hc
    exact absurd (by rw [decide_eq_true h1, decide_eq_true h2, decide_eq_true h3]; rfl) hc

/-- Helper: with all three secrets set, the awaited getTransactionStatus
outcome is exactly the network outcome — the configuration check cannot
throw. -/
theorem draft2_getStatusOutcome_net (sha : String → String) (env : Env)
    (txid : String) (net : Except String Upstream)
    (hsec : secretsSet env = true) :
    Draft2.getStatusOutcome sha env txid net = net := by
  rcases env with ⟨em, ek, ei, eb, en⟩
  replace hsec : (truthyStr em && truthyStr ek && truthyStr ei) = true := hsec
  rw [Bool.and_eq_true, Bool.and_eq_true] at hsec
  obtain ⟨⟨h1, h2⟩, h3⟩ := hsec
  rcases em with _ | mid
  · exact Bool.noConfusion h1
  rcases ek with _ | sk
  · exact Bool.noConfusion h2
  rcases ei with _ | si
  · exact Bool.noConfusion h3
  obtain ⟨c, hc⟩ := draft2_statusStage1_isOk sha mid sk si eb en txid
    (of_decide_eq_true h1) (of_decide_eq_true h2) (of_decide_eq_true h3)
  simp only [Draft2.getStatusOutcome, hc]

/-- Claim C8 as amended: the src/server.js callback always returns the
fixed 200 acknowledgment, which carries neither the transaction id nor
a timestamp; the second draft's acknowledgment does carry both and is
returned when the status check is skipped (no merchant id) or
succeeds, but a status check whose awaited outcome is a throw yields a
500 instead. -/
theorem c8_amended :
    (∀ txid : String, ServerJs.callbackRespond txid
       = { status := 200, message := some "Callback received" })
  ∧ (∀ (sha : String → String) (env : Env) (net : Except String Upstream) (txid ts : String),
       truthyStr env.merchantId = false →
       Draft2.callbackRespond sha env net txid ts = Draft2.callbackAck txid ts)
  ∧ (∀ (sha : String → String) (env : Env) (up : Upstream) (txid ts : String),
       secretsSet env = true →
       Draft2.callbackRespond sha env (.ok up) txid ts = Draft2.callbackAck txid ts)
  ∧ (∀ (sha : String → String) (env : Env) (net : Except String Upstream)
       (msg txid ts : String),
       truthyStr env.merchantId = true →
       Draft2.getStatusOutcome sha env txid net = .error msg →
       Draft2.callbackRespond sha env net txid ts
         = { status := 500, error := some "Callback processing failed" })
  ∧ (∀ txid ts : String, (Draft2.callbackAck txid ts).transactionId = some txid
       ∧ (Draft2.callbackAck txid ts).timestamp = some ts) := by
  refine ⟨fun txid => rfl, ?_, ?_, ?_, fun txid ts => ⟨rfl, rfl⟩⟩
  · intro sha env net txid ts h
    simp only [Draft2.callbackRespond, h]
    rfl
  · intro sha env up txid ts hsec
    have hm : truthyStr env.merchantId = true := by
      replace hsec : (truthyStr env.merchantId && truthyStr env.saltKey
        && truthyStr env.saltIndex) = true := hsec
      rw [Bool.and_eq_true, Bool.and_eq_true] at hsec
      exact hsec.1.1
    unfold Draft2.callbackRespond
    rw [hm, draft2_getStatusOutcome_net sha env txid (Except.ok up) hsec]
    rfl
  · intro sha env net msg txid ts hm hout
    unfold Draft2.callbackRespond
    rw [hm, hout]
    rfl

/-- Witness for the amended C8: with full configuration and a
successfully parsed status reply, the callback acknowledgment carries
the transaction id and the timestamp. -/
theorem c8_amended_w :
    Draft2.callbackRespond constSha envFull (.ok upRejC) "T1" "TS"
      = Draft2.callbackAck "T1" "TS" :=
  c8_amended.2.2.1 constSha envFull upRejC "T1" "TS" (by decide)

/-- Claim C10: both health endpoints report only presence booleans for
the three secrets (never their values), so two configurations that both
set all secrets — with arbitrary, possibly different secret values —
produce identical health responses at the same timestamp (for the
second draft, with the non-secret base URL and node environment held
fixed); and every 500 returned by the src/server.js pay pre-call stage
is the constant configuration-error body, carrying no configuration
values. -/
theorem c10_noninterference :
    (∀ (e1 e2 : Env) (ts : String),
       secretsSet e1 = true → secretsSet e2 = true →
       ServerJs.healthRespond e1 ts = ServerJs.healthRespond e2 ts)
  ∧ (∀ (e1 e2 : Env) (ts : String),
       secretsSet e1 = true → secretsSet e2 = true →
       e1.baseUrl = e2.baseUrl → e1.nodeEnv = e2.nodeEnv →
       Draft2.healthRespond e1 ts = Draft2.healthRespond e2 ts)
  ∧ (∀ (sha : String → String) (ser : Payload → String) (env : Env) (req : PayReq)
       (now : Nat) (r : PayResponse),
       ServerJs.payStage1 sha ser env req now = .error r →
       r.status = 500 → r = ServerJs.configErrorResp) := by
  refine ⟨?_, ?_, ?_⟩
  · intro e1 e2 ts h1 h2
    replace h1 : (truthyStr e1.merchantId && truthyStr e1.saltKey && truthyStr e1.saltIndex) = true := h1
    replace h2 : (truthyStr e2.merchantId && truthyStr e2.saltKey && truthyStr e2.saltIndex) = true := h2
    rw [Bool.and_eq_true, Bool.and_eq_true] at h1 h2
    obtain ⟨⟨h1a, h1b⟩, h1c⟩ := h1
    obtain ⟨⟨h2a, h2b⟩, h2c⟩ := h2
    simp [ServerJs.healthRespond, h1a, h1b, h1c, h2a, h2b, h2c]
  · intro e1 e2 ts h1 h2 hb hn
    have g1 := h1
    have g2 := h2
    replace h1 : (truthyStr e1.merchantId && truthyStr e1.saltKey && truthyStr e1.saltIndex) = true := h1
    replace h2 : (truthyStr e2.merchantId && truthyStr e2.saltKey && truthyStr e2.saltIndex) = true := h2
    rw [Bool.and_eq_true, Bool.and_eq_true] at h1 h2
    obtain ⟨⟨h1a, h1b⟩, h1c⟩ := h1
    obtain ⟨⟨h2a, h2b⟩, h2c⟩ := h2
    simp [Draft2.healthRespond, g1, g2, h1a, h1b, h1c, h2a, h2b, h2c, hb, hn]
  · intro sha ser env req now r h hst
    rcases req with ⟨ra, rm, rn⟩
    rcases ra with _ | a <;> rcases rm with _ | mob <;> rcases rn with _ | nam <;>
      simp only [ServerJs.payStage1] at h <;>
      repeat' split at h
    all_goals first
      | exact Except.noConfusion h
      | (injection h with h; subst h; rfl)
      | (injection h with h; subst h; simp [ServerJs.missingFieldsResp] at hst)

/-- Witness for C10 at two configurations with different secret
values. -/
theorem c10_noninterference_w :
    ServerJs.healthRespond ⟨some "M1", some "K1", some "1", none, none⟩ "t"
      = ServerJs.healthRespond ⟨some "M2", some "K2", some "2", none, none⟩ "t" :=
  c10_noninterference.1 ⟨some "M1", some "K1", some "1", none, none⟩
    ⟨some "M2", some "K2", some "2", none, none⟩ "t" (by decide) (by decide)
